import Mathlib

/-!
Shallow embedding of `src/http.go` of the geoip gateway: the router built by
`initHTTP`, the middleware chain, the rate limiter (go-web/httprl modelled at
its boundary, parameters taken from the source), the `/api/ping` handler, the
SPA catch-all handler, the serve-goroutine error path and the shutdown
sequence.  Components of the repository that are referenced from `http.go` but
whose code is not available (`flags` defaults, `registerAPI`,
`rateHeaderMiddleware`) are modelled from the spec and say so in their doc
comments.
-/

set_option autoImplicit false

namespace GeoIP

/-- HTTP methods relevant to the gateway (the CORS config allows GET, HEAD,
OPTIONS; routes are registered for GET and HEAD only). -/
inductive Method where
  | GET | HEAD | OPTIONS
  deriving DecidableEq, Repr

/-- The middlewares appearing in `initHTTP`, in source naming:
`middleware.RealIP`, `recoverer.New`, `middleware.Logger`,
`middleware.StripSlashes`, `middleware.Compress(9)`, `dbDetailsMiddleware`,
`middleware.ThrottleBacklog`, `corsh.Handler`, `middleware.NoCache`,
`limiter.Handle` (httprl) and `rateHeaderMiddleware`. -/
inductive Mw where
  | realIP | recoverer | logger | stripSlashes | compress | dbDetails
  | throttleBacklog | corsHandler | noCache | limiterHandle | rateHeader
  deriving DecidableEq, Repr

/-- Identity of the final handler of a route. -/
inductive HandlerId where
  | ping            -- `pingHandler`
  | spaCatchAll     -- the anonymous `r.Get("/*", ...)` handler
  | apiRoute        -- a handler registered by `registerAPI`
  | distFiles       -- the `/dist` mount (static file server)
  | profiler        -- the `/debug` mount (only when `flags.Debug`)
  deriving DecidableEq, Repr

/-- A method-specific route registration (`r.Get` / `r.Head`), carrying the
`With(...)`-chain of route-level middlewares. -/
structure Route where
  method : Method
  pattern : String
  mws : List Mw
  handler : HandlerId
  deriving DecidableEq, Repr

/-- TLS part of the configuration surface (`flags.HTTP.TLS`). -/
structure TLSFlags where
  use : Bool
  cert : String
  key : String
  deriving Repr

/-- The `flags.HTTP` configuration consumed by `initHTTP`.  The fields
`proxy`, `throttle`, `cors`, `limit`, `bind`, `tls` appear literally in
`src/http.go`.  The fields `windowInterval` and `cleanupInterval` are
Modelled from the spec: the configuration surface is said to contain a
"window interval" and a "cleanup tick interval" (the `flags` declaration is
not part of the available source). -/
structure HTTPFlags where
  proxy : Bool
  throttle : Int
  cors : List String
  limit : Int
  bind : String
  tls : TLSFlags
  windowInterval : Nat
  cleanupInterval : Nat
  deriving Repr

/-- The process-wide configuration (`flags`). -/
structure Flags where
  debug : Bool
  http : HTTPFlags
  deriving Repr

/-- Modelled from the spec: the trusted-proxy flag "must default to off", and
flag structs default to their zero values; the `flags` declaration itself is
not part of the available source. -/
def defaultFlags : Flags :=
  { debug := false
    http :=
      { proxy := false
        throttle := 0
        cors := []
        limit := 0
        bind := ":80"
        tls := { use := false, cert := "", key := "" }
        windowInterval := 3600
        cleanupInterval := 10 } }

/-- The Go `uint64(i)` conversion of a (signed, arbitrary-precision here)
integer: reduction modulo 2^64. -/
def goUInt64 (i : Int) : Nat :=
  (i % (2 : Int) ^ 64).toNat

/-- The numeric parameters of the `httprl.RateLimiter` literal built in
`initHTTP` (lines 94-107): `Limit: uint64(flags.HTTP.Limit)` and
`Interval: 60 * 60 // 1h.`. -/
structure RateLimiterCfg where
  limit : Nat
  interval : Nat
  deriving DecidableEq, Repr

/-- The limiter constructed by `initHTTP` from the configuration: the limit
comes from `flags.HTTP.Limit`, the interval is the literal `60 * 60`. -/
def limiterOf (f : Flags) : RateLimiterCfg :=
  { limit := goUInt64 f.http.limit, interval := 60 * 60 }

/-- The argument of `NewMapLimiter(10)` (line 33): the numeric
parameter is the literal `10`, not a configuration value. -/
def mapLimiterArg : Nat := 10

/-- Route-level middleware chain of the API group (lines 112-116):
`With(corsh.Handler, middleware.NoCache, limiter.Handle)` when
`flags.HTTP.Limit > 0`, and `With(corsh.Handler, middleware.NoCache)`
otherwise. -/
def apiGroupMws (limit : Int) : List Mw :=
  if limit > 0 then [Mw.corsHandler, Mw.noCache, Mw.limiterHandle]
  else [Mw.corsHandler, Mw.noCache]

/-- Modelled from the spec: `registerAPI` (not part of the available source)
registers the remaining `/api/*` endpoints; the HTTP surface of the spec lists GET
endpoints only besides ping ("This endpoint is the only one which has HTTP
HEAD support"), so the routes of the group are GET routes over a list of
patterns. -/
def apiGroupRoutes (limit : Int) (aps : List String) : List Route :=
  aps.map fun p => { method := Method.GET, pattern := p,
                     mws := apiGroupMws limit, handler := HandlerId.apiRoute }

/-- Route-level middleware chain of the separately registered `/api/ping`
routes (lines 123-124): `With(corsh.Handler, middleware.NoCache,
rateHeaderMiddleware)`. -/
def pingMws : List Mw := [Mw.corsHandler, Mw.noCache, Mw.rateHeader]

/-- The router assembled by `initHTTP`: the `r.Use` chain in source order
(lines 41-54), the mounts (lines 56-64) and the method routes (lines 66,
112-124), parameterised by the configuration and by the patterns the
`registerAPI` group registers. -/
structure Router where
  mws : List Mw
  mounts : List (String × HandlerId)
  routes : List Route
  deriving Repr

def buildRouter (f : Flags) (aps : List String) : Router :=
  { mws :=
      (if f.http.proxy then [Mw.realIP] else [])
      ++ [Mw.recoverer, Mw.logger, Mw.stripSlashes, Mw.compress, Mw.dbDetails]
      ++ (if f.http.throttle > 0 then [Mw.throttleBacklog] else [])
    mounts :=
      (if f.debug then [("/debug", HandlerId.profiler)] else [])
      ++ [("/dist", HandlerId.distFiles)]
    routes :=
      [{ method := Method.GET, pattern := "/*", mws := [],
         handler := HandlerId.spaCatchAll }]
      ++ apiGroupRoutes f.http.limit aps
      ++ [{ method := Method.GET, pattern := "/api/ping", mws := pingMws,
            handler := HandlerId.ping },
          { method := Method.HEAD, pattern := "/api/ping", mws := pingMws,
            handler := HandlerId.ping }] }

/-! ## Request / response semantics -/

/-- An inbound request: method, URL path, transport-level remote address
(`r.RemoteAddr`, `host:port`), the optional forwarded-client header, and the
arrival time in seconds (the clock the limiter windows are measured on). -/
structure Request where
  method : Method
  path : String
  remoteAddr : String
  forwardedClient : Option String
  now : Nat
  deriving Repr

/-- A response: status code, headers, body. -/
structure Resp where
  status : Nat
  headers : List (String × String)
  body : String
  deriving DecidableEq, Repr

/-- Counter state of the map limiter backend: per key, the post-increment
count and the window start. -/
abbrev Counters := List (String × Nat × Nat)

def cLookup (c : Counters) (k : String) : Option (Nat × Nat) :=
  (c.find? fun e => e.1 == k).map (·.2)

def cStore (c : Counters) (k : String) (cnt ws : Nat) : Counters :=
  (k, cnt, ws) :: c.filter fun e => !(e.1 == k)

/-- The backend operation `increment(key, interval)` at time `now`: a fresh entry (or
an entry whose window has expired) restarts at count 1 with window start
`now`; otherwise the count is incremented within the existing window.
Returns (post-increment count, window start, new state). -/
def increment (c : Counters) (k : String) (interval now : Nat) :
    Nat × Nat × Counters :=
  match cLookup c k with
  | none => (1, now, cStore c k 1 now)
  | some (cnt, ws) =>
      if interval ≤ now - ws then (1, now, cStore c k 1 now)
      else (cnt + 1, ws, cStore c k (cnt + 1) ws)

/-- Outcome of running a handler / middleware stack: a response together with
the resulting counter state, or a propagating panic. -/
inductive HResult where
  | ok : Resp → Counters → HResult
  | panicked : Counters → HResult
  deriving Repr

/-- A handler in continuation form. -/
abbrev Handler := Request → Counters → HResult

/-- Go `strings.HasPrefix` (and the chi mount prefix matching), computed on the
character list so that concrete instances evaluate. -/
def goHasPre (s pre : String) : Bool :=
  pre.data.isPrefixOf s.data

/-- `httprl.DefaultKeyMaker`: the client key is the IP of `r.RemoteAddr`
with the port stripped (modelled at the library boundary: everything before
the first colon). -/
def keyOf (req : Request) : String :=
  String.mk (req.remoteAddr.data.takeWhile fun ch => ch != ':')

/-- `middleware.RealIP` (modelled at the library boundary): when a
forwarded-client header is present, the remote address seen by everything
downstream is rewritten to the forwarded client. -/
def realIPRewrite (req : Request) : Request :=
  match req.forwardedClient with
  | some ip => { req with remoteAddr := ip }
  | none => req

/-- `middleware.StripSlashes` (modelled at the library boundary): a trailing
slash is stripped from paths of length > 1 before routing. -/
def stripSlash (p : String) : String :=
  if 1 < p.data.length ∧ p.data.getLast? = some '/' then String.mk p.data.dropLast
  else p

/-- The three rate-limit headers as httprl writes them, from the limit, the
post-increment (or snapshot) count and the window start: remaining is
`limit - count` clamped at 0 (Nat subtraction), reset is the window end. -/
def rlHeaderList (limit cnt ws interval : Nat) : List (String × String) :=
  [("X-Ratelimit-Limit", toString limit),
   ("X-Ratelimit-Remaining", toString (limit - cnt)),
   ("X-Ratelimit-Reset", toString (ws + interval))]

/-- Modelled from the spec: `rateHeaderMiddleware` (not part of the available
source) computes the same limit/remaining/reset headers a limited request
would carry, "computed without counting against quota": a pure snapshot of
the current counter state, count 0 for an absent or expired window. -/
def rateSnapshot (c : Counters) (k : String) (limit interval now : Nat) :
    List (String × String) :=
  match cLookup c k with
  | none => rlHeaderList limit 0 now interval
  | some (cnt, ws) =>
      if interval ≤ now - ws then rlHeaderList limit 0 now interval
      else rlHeaderList limit cnt ws interval

def withHeaders (hs : List (String × String)) : HResult → HResult
  | HResult.ok r c => HResult.ok { r with headers := hs ++ r.headers } c
  | HResult.panicked c => HResult.panicked c

/-- The 500 response of the recoverer (`recoverer.New`, modelled at the library
boundary: a caught panic becomes an internal-server-error response). -/
def recov500 : Resp :=
  { status := 500, headers := [], body := "Internal Server Error" }

/-- What the recoverer does to the outcome of everything it wraps: a panic
becomes the 500 response (with the counter state as the panicking run left
it), a normal outcome passes through. -/
def recoverWrap : HResult → HResult
  | HResult.ok r c => HResult.ok r c
  | HResult.panicked c => HResult.ok recov500 c

/-- The httprl reject response when the limit is exceeded: status 429, the
rate-limit headers already set, downstream never invoked. -/
def resp429 (hs : List (String × String)) : Resp :=
  { status := 429, headers := hs, body := "Too Many Requests" }

/-- Semantics of one middleware wrapping a continuation.  `Logger`,
`Compress`, `dbDetailsMiddleware`, `ThrottleBacklog`, the CORS handler and
`NoCache` are modelled as pass-through at their boundary (they only log /
compress / annotate headers unrelated to the claims).  The limiter uses the
configuration exactly as `initHTTP` wires it: limit `uint64(flags.HTTP.Limit)`
and interval `60 * 60`. -/
def runMw (f : Flags) : Mw → Handler → Handler
  | Mw.realIP, next => fun req c => next (realIPRewrite req) c
  | Mw.recoverer, next => fun req c => recoverWrap (next req c)
  | Mw.stripSlashes, next => fun req c =>
      next { req with path := stripSlash req.path } c
  | Mw.limiterHandle, next => fun req c =>
      let lim := (limiterOf f).limit
      let itv := (limiterOf f).interval
      let k := keyOf req
      let r := increment c k itv req.now
      let hs := rlHeaderList lim r.1 r.2.1 itv
      if lim < r.1 then HResult.ok (resp429 hs) r.2.2
      else withHeaders hs (next req r.2.2)
  | Mw.rateHeader, next => fun req c =>
      withHeaders (rateSnapshot c (keyOf req) (limiterOf f).limit
        (limiterOf f).interval req.now) (next req c)
  | _, next => next

/-- Folding a middleware chain around a handler, outermost first. -/
def runChain (f : Flags) (ms : List Mw) (h : Handler) : Handler :=
  ms.foldr (fun m acc => runMw f m acc) h

/-! ## Handlers -/

/-- The JSON encoding of `apiPong` as `json.Encoder.Encode` writes it
(object plus trailing newline). -/
def pongJSON : String := "\x7b\"pong\":true\x7d\n"

/-- `pingHandler` (lines 163-173): HEAD gets a bare 200, GET gets 200 with
the JSON pong body and `Content-Type: application/json`. -/
def pingResp (m : Method) : Resp :=
  if m = Method.HEAD then { status := 200, headers := [], body := "" }
  else { status := 200, headers := [("Content-Type", "application/json")],
         body := pongJSON }

/-- `http.NotFound` (modelled at the library boundary). -/
def resp404 : Resp :=
  { status := 404, headers := [("Content-Type", "text/plain; charset=utf-8")],
    body := "404 page not found\n" }

/-- The chi method-not-allowed fallback (modelled at the library boundary). -/
def resp405 : Resp := { status := 405, headers := [], body := "" }

/-- The `/dist` mount (lines 60-64): cache headers plus the static file
server, modelled at the library boundary. -/
def distResp : Resp :=
  { status := 200,
    headers := [("Vary", "Accept-Encoding"),
                ("Cache-Control", "public, max-age=7776000")],
    body := "" }

/-- The `/debug` profiler mount, modelled at the library boundary. -/
def profilerResp : Resp := { status := 200, headers := [], body := "" }

/-- The final handler bodies.  `fsIndex` models
`publicDist.ReadFile("public/dist/index.html")` (`none` = read error, which
the catch-all turns into a panic, lines 72-75); `apiH` is Modelled from the
spec: an API route handler returns a response and does not touch the limiter
state. -/
def handlerOf (fsIndex : Option String) (apiH : Request → Resp) :
    HandlerId → Handler
  | HandlerId.ping => fun req c => HResult.ok (pingResp req.method) c
  | HandlerId.spaCatchAll => fun req c =>
      if goHasPre req.path "/api" then HResult.ok resp404 c
      else
        match fsIndex with
        | some b => HResult.ok { status := 200, headers := [], body := b } c
        | none => HResult.panicked c
  | HandlerId.apiRoute => fun req c => HResult.ok (apiH req) c
  | HandlerId.distFiles => fun _ c => HResult.ok distResp c
  | HandlerId.profiler => fun _ c => HResult.ok profilerResp c

/-! ## Dispatch -/

/-- Mount matching: a mount handles every path under its prefix (chi `Mount`,
modelled at the library boundary). -/
def mountMatch (ms : List (String × HandlerId)) (p : String) :
    Option HandlerId :=
  (ms.find? fun m => goHasPre p m.1).map (·.2)

/-- Method-specific routing: an exact (non-wildcard) pattern match wins over
the `/*` catch-all (the chi static-over-wildcard precedence, modelled at the
library boundary). -/
def findExact (rs : List Route) (m : Method) (p : String) : Option Route :=
  rs.find? fun r => r.method == m && r.pattern != "/*" && r.pattern == p

def findWildcard (rs : List Route) (m : Method) : Option Route :=
  rs.find? fun r => r.method == m && r.pattern == "/*"

/-- Routing and execution below the `r.Use` chain: mounts first, then exact
method routes (with their `With`-chains), then the catch-all, then chi's
404/405 fallbacks. -/
def routeHandler (f : Flags) (rt : Router) (fsIndex : Option String)
    (apiH : Request → Resp) : Handler :=
  fun req c =>
    match mountMatch rt.mounts req.path with
    | some h => handlerOf fsIndex apiH h req c
    | none =>
        match findExact rt.routes req.method req.path with
        | some r => runChain f r.mws (handlerOf fsIndex apiH r.handler) req c
        | none =>
            match findWildcard rt.routes req.method with
            | some r =>
                runChain f r.mws (handlerOf fsIndex apiH r.handler) req c
            | none => HResult.ok resp405 c

/-- End-to-end processing of one request by the router `initHTTP` builds. -/
def serve (f : Flags) (aps : List String) (fsIndex : Option String)
    (apiH : Request → Resp) : Handler :=
  fun req c =>
    runChain f (buildRouter f aps).mws
      (routeHandler f (buildRouter f aps) fsIndex apiH) req c

/-- The request rewriting performed by the `r.Use` chain before routing:
`RealIP` (when trusted-proxy is on) then `StripSlashes`. -/
def topRewrite (f : Flags) (req : Request) : Request :=
  let r1 := if f.http.proxy then realIPRewrite req else req
  { r1 with path := stripSlash r1.path }

/-! ## Basic lemmas about the chain -/

theorem realIPRewrite_path (req : Request) :
    (realIPRewrite req).path = req.path := by
  cases h : req.forwardedClient <;> simp [realIPRewrite, h]

theorem realIPRewrite_method (req : Request) :
    (realIPRewrite req).method = req.method := by
  cases h : req.forwardedClient <;> simp [realIPRewrite, h]

theorem realIPRewrite_now (req : Request) :
    (realIPRewrite req).now = req.now := by
  cases h : req.forwardedClient <;> simp [realIPRewrite, h]

theorem topRewrite_path (f : Flags) (req : Request) :
    (topRewrite f req).path = stripSlash req.path := by
  by_cases hp : f.http.proxy <;>
    simp [topRewrite, hp, realIPRewrite_path]

theorem topRewrite_method (f : Flags) (req : Request) :
    (topRewrite f req).method = req.method := by
  by_cases hp : f.http.proxy <;>
    simp [topRewrite, hp, realIPRewrite_method]

theorem topRewrite_now (f : Flags) (req : Request) :
    (topRewrite f req).now = req.now := by
  by_cases hp : f.http.proxy <;>
    simp [topRewrite, hp, realIPRewrite_now]

theorem topRewrite_remoteAddr_no_proxy (f : Flags) (req : Request)
    (h : f.http.proxy = false) :
    (topRewrite f req).remoteAddr = req.remoteAddr := by
  simp [topRewrite, h]

/-- Collapsing the `r.Use` chain: running it around any handler rewrites the
request (RealIP when configured, then StripSlashes) and recovers panics; the
logger, compressor, db-details and throttle middlewares are pass-through. -/
theorem runChain_top (f : Flags) (aps : List String) (h : Handler)
    (req : Request) (c : Counters) :
    runChain f (buildRouter f aps).mws h req c =
      recoverWrap (h (topRewrite f req) c) := by
  by_cases hp : f.http.proxy <;> by_cases ht : f.http.throttle > 0 <;>
    simp [buildRouter, runChain, runMw, topRewrite, hp, ht]

theorem runChain_pingMws (f : Flags) (h : Handler) (req : Request)
    (c : Counters) :
    runChain f pingMws h req c =
      withHeaders (rateSnapshot c (keyOf req) (limiterOf f).limit
        (limiterOf f).interval req.now) (h req c) := by
  simp [pingMws, runChain, runMw]

theorem runChain_apiMws_disabled (f : Flags) (h : Handler) (req : Request)
    (c : Counters) (hlim : f.http.limit ≤ 0) :
    runChain f (apiGroupMws f.http.limit) h req c = h req c := by
  have hlt : ¬ f.http.limit > 0 := not_lt.mpr hlim
  simp [apiGroupMws, hlt, runChain, runMw]

/-- No mount catches a path that lies under neither `/debug` nor `/dist`. -/
theorem mountMatch_none (f : Flags) (aps : List String) (p : String)
    (h1 : goHasPre p "/debug" = false) (h2 : goHasPre p "/dist" = false) :
    mountMatch (buildRouter f aps).mounts p = none := by
  by_cases hd : f.debug <;>
    simp [buildRouter, mountMatch, hd, h1, h2]

/-- The routes of the API group never match a pattern that is not in the group's
pattern list. -/
theorem find?_api_none (limit : Int) (aps : List String) (m : Method)
    (p : String) (hp : p ∉ aps) :
    (apiGroupRoutes limit aps).find?
      (fun r => r.method == m && r.pattern != "/*" && r.pattern == p)
      = none := by
  induction aps with
  | nil => rfl
  | cons a t ih =>
      have hap : ¬(a = p) := fun h => hp (h ▸ List.mem_cons_self a t)
      have ht : p ∉ t := fun h => hp (List.mem_cons_of_mem a h)
      have h3 : (a == p) = false := beq_eq_false_iff_ne.mpr hap
      simp only [apiGroupRoutes, List.map_cons] at ih ⊢
      rw [List.find?_cons_of_neg]
      · exact ih ht
      · simp [h3]

/-- A pattern registered by the API group is found by exact routing, with the
middleware chain and handler of the group. -/
theorem find?_api_mem (limit : Int) (aps : List String) (p : String)
    (hp : p ∈ aps) (hw : p ≠ "/*") :
    (apiGroupRoutes limit aps).find?
      (fun r => r.method == Method.GET && r.pattern != "/*" && r.pattern == p)
      = some { method := Method.GET, pattern := p,
               mws := apiGroupMws limit, handler := HandlerId.apiRoute } := by
  induction aps with
  | nil => cases hp
  | cons a t ih =>
      simp only [apiGroupRoutes, List.map_cons] at ih ⊢
      by_cases hap : a = p
      · subst hap
        rw [List.find?_cons_of_pos]
        simp [bne_iff_ne, hw]
      · have h3 : (a == p) = false := beq_eq_false_iff_ne.mpr hap
        have ht : p ∈ t := by
          cases List.mem_cons.mp hp with
          | inl h => exact absurd h.symm hap
          | inr h => exact h
        rw [List.find?_cons_of_neg]
        · exact ih ht
        · simp [h3]

/-- Exact routing of `/api/ping` finds the separately registered ping route
for its method. -/
theorem findExact_ping (f : Flags) (aps : List String)
    (hape : "/api/ping" ∉ aps) (m : Method)
    (hm : m = Method.GET ∨ m = Method.HEAD) :
    findExact (buildRouter f aps).routes m "/api/ping" =
      some { method := m, pattern := "/api/ping", mws := pingMws,
             handler := HandlerId.ping } := by
  have hnone := find?_api_none f.http.limit aps m "/api/ping" hape
  simp only [buildRouter, findExact, List.singleton_append, List.cons_append]
  rw [List.find?_cons_of_neg]
  · rw [List.find?_append]
    simp only [List.nil_append]
    rw [hnone, Option.none_or]
    cases hm with
    | inl h =>
        subst h
        rw [List.find?_cons_of_pos]
        decide
    | inr h =>
        subst h
        rw [List.find?_cons_of_neg, List.find?_cons_of_pos]
        all_goals decide
  · cases m <;> simp

/-- Routing a request for `/api/ping`: the separately registered ping route
runs under `corsh.Handler`, `NoCache` and `rateHeaderMiddleware` — the rate
headers are a snapshot and the counter state is untouched. -/
theorem routeHandler_ping (f : Flags) (aps : List String)
    (fsIndex : Option String) (apiH : Request → Resp) (req : Request)
    (c : Counters) (hape : "/api/ping" ∉ aps) (hp : req.path = "/api/ping")
    (hm : req.method = Method.GET ∨ req.method = Method.HEAD) :
    routeHandler f (buildRouter f aps) fsIndex apiH req c =
      withHeaders (rateSnapshot c (keyOf req) (limiterOf f).limit
        (limiterOf f).interval req.now)
        (HResult.ok (pingResp req.method) c) := by
  have hm1 : mountMatch (buildRouter f aps).mounts "/api/ping" = none :=
    mountMatch_none f aps _ (by decide) (by decide)
  have hf := findExact_ping f aps hape req.method hm
  simp only [routeHandler, hp, hm1, hf]
  rw [runChain_pingMws]
  simp [handlerOf, hp]

/-- Routing a GET request for a pattern registered by the API group: the
route runs under the `With`-chain of the group. -/
theorem routeHandler_api (f : Flags) (aps : List String)
    (fsIndex : Option String) (apiH : Request → Resp) (req : Request)
    (c : Counters) (hp : req.path ∈ aps) (hw : req.path ≠ "/*")
    (hm : req.method = Method.GET)
    (h1 : goHasPre req.path "/debug" = false)
    (h2 : goHasPre req.path "/dist" = false) :
    routeHandler f (buildRouter f aps) fsIndex apiH req c =
      runChain f (apiGroupMws f.http.limit)
        (handlerOf fsIndex apiH HandlerId.apiRoute) req c := by
  have hm1 := mountMatch_none f aps req.path h1 h2
  have hf : findExact (buildRouter f aps).routes req.method req.path =
      some { method := Method.GET, pattern := req.path,
             mws := apiGroupMws f.http.limit,
             handler := HandlerId.apiRoute } := by
    rw [hm]
    simp only [buildRouter, findExact, List.singleton_append,
      List.cons_append]
    rw [List.find?_cons_of_neg]
    · rw [List.find?_append]
      simp only [List.nil_append]
      rw [find?_api_mem f.http.limit aps req.path hp hw]
      rfl
    · simp
  simp only [routeHandler, hm1, hf]

/-- Routing a GET request that matches no mount and no exact route: the
`/*` catch-all runs with an empty route-level chain. -/
theorem routeHandler_catchall (f : Flags) (aps : List String)
    (fsIndex : Option String) (apiH : Request → Resp) (req : Request)
    (c : Counters) (hp : req.path ∉ aps) (hping : req.path ≠ "/api/ping")
    (hm : req.method = Method.GET)
    (h1 : goHasPre req.path "/debug" = false)
    (h2 : goHasPre req.path "/dist" = false) :
    routeHandler f (buildRouter f aps) fsIndex apiH req c =
      handlerOf fsIndex apiH HandlerId.spaCatchAll req c := by
  have hm1 := mountMatch_none f aps req.path h1 h2
  have hne : ("/api/ping" == req.path) = false :=
    beq_eq_false_iff_ne.mpr fun h => hping h.symm
  have hf : findExact (buildRouter f aps).routes req.method req.path
      = none := by
    simp only [buildRouter, findExact, List.singleton_append,
      List.cons_append]
    rw [List.find?_cons_of_neg]
    · rw [List.find?_append]
      simp only [List.nil_append]
      rw [find?_api_none f.http.limit aps req.method req.path hp,
        Option.none_or]
      rw [List.find?_cons_of_neg, List.find?_cons_of_neg, List.find?_nil]
      · rw [hm]; simp
      · simp [hne]
    · simp
  have hwild : findWildcard (buildRouter f aps).routes req.method =
      some { method := Method.GET, pattern := "/*", mws := [],
             handler := HandlerId.spaCatchAll } := by
    simp only [buildRouter, findWildcard, List.singleton_append,
      List.cons_append]
    rw [List.find?_cons_of_pos]
    rw [hm]
    decide
  simp only [routeHandler, hm1, hf, hwild]
  simp [runChain]

/-- The field names of the three rate-limit headers are the same in every
branch of the snapshot. -/
theorem rateSnapshot_names (c : Counters) (k : String) (l i n : Nat) :
    (rateSnapshot c k l i n).map Prod.fst =
      ["X-Ratelimit-Limit", "X-Ratelimit-Remaining", "X-Ratelimit-Reset"] := by
  unfold rateSnapshot
  cases cLookup c k with
  | none => simp [rlHeaderList]
  | some e =>
      cases e with
      | mk cnt ws => by_cases h : i ≤ n - ws <;> simp [h, rlHeaderList]

/-! ## Process lifecycle: the serve goroutine and shutdown (lines 109-161) -/

/-- Observable process-level events of the lifecycle code of `initHTTP`. -/
inductive ProcEv where
  | logStarting             -- "starting http(s) server"
  | logServeError           -- "error in http(s) server: ..."
  | exitProcess (code : Nat)  -- `os.Exit(code)`
  | drainLog                -- "gracefully closing http connections"
  | listenerClose           -- the listening socket is closed
  | requestAborted          -- an active connection (in-flight request) is cut
  | backendStop             -- `mapLimiter.Stop()`
  deriving DecidableEq, Repr

/-- The serving goroutine (lines 136-152; the TLS and plain branches have the
same shape): log the start, run `ListenAndServe`, and on any non-nil error
print the error and call `os.Exit(1)` — with no drain step in between. -/
def serveGoroutine (listenErr : Option String) : List ProcEv :=
  [ProcEv.logStarting] ++
    (match listenErr with
     | some _ => [ProcEv.logServeError, ProcEv.exitProcess 1]
     | none => [])

/-- The Go `net/http` `Server.Close`, modelled at its documented boundary: it
closes the listening socket and every active connection immediately, without
waiting for in-flight requests to finish (the graceful, draining variant is
`Server.Shutdown`, which `initHTTP` never calls).  `inflight` is the number
of requests mid-flight when the call happens. -/
def srvCloseEvents (inflight : Nat) : List ProcEv :=
  ProcEv.listenerClose :: List.replicate inflight ProcEv.requestAborted

/-- The shutdown path of `initHTTP` (lines 155-160 plus the deferred
`mapLimiter.Stop()` of line 110): on the `closer` signal it logs "gracefully
closing http connections", calls `srv.Close()`, and then the deferred
backend stop runs. -/
def shutdownEvents (inflight : Nat) : List ProcEv :=
  ProcEv.drainLog :: srvCloseEvents inflight ++ [ProcEv.backendStop]

/-- The middleware ordering contract of the spec, clauses (1)-(6), written from
the words of the spec itself (the spec does not name `dbDetailsMiddleware`): the
specification side of the refinement proof for the chain order. -/
def specMwOrder (f : Flags) : List Mw :=
  (if f.http.proxy then [Mw.realIP] else [])
  ++ [Mw.recoverer, Mw.logger, Mw.stripSlashes, Mw.compress]
  ++ (if f.http.throttle > 0 then [Mw.throttleBacklog] else [])

/-! ## Claims -/

/-- C4: the `r.Use` chain realises the ordering contract of the spec: the named
middlewares occur in exactly the claimed relative order (as a sublist — the
source interposes only the unnamed `dbDetailsMiddleware`); the recovery
middleware wraps everything below it, with only the optional IP rewrite
outside it; the rate limiter and the header middleware are not in the global
chain but only in the API route groups, whose chain is CORS, NoCache, then
the limiter. -/
theorem middleware_chain_order (f : Flags) (aps : List String) :
    List.Sublist (specMwOrder f) (buildRouter f aps).mws ∧
    (∃ rest, (buildRouter f aps).mws =
      (if f.http.proxy then [Mw.realIP] else []) ++ Mw.recoverer :: rest) ∧
    Mw.limiterHandle ∉ (buildRouter f aps).mws ∧
    Mw.rateHeader ∉ (buildRouter f aps).mws ∧
    (0 < f.http.limit →
      apiGroupMws f.http.limit =
        [Mw.corsHandler, Mw.noCache, Mw.limiterHandle]) := by
  refine ⟨?_, ?_, ?_, ?_, fun hl => by simp [apiGroupMws, hl]⟩
  · by_cases hp : f.http.proxy <;> by_cases ht : f.http.throttle > 0 <;>
      simp [specMwOrder, buildRouter, hp, ht]
  · refine ⟨[Mw.logger, Mw.stripSlashes, Mw.compress, Mw.dbDetails]
      ++ (if f.http.throttle > 0 then [Mw.throttleBacklog] else []), ?_⟩
    by_cases hp : f.http.proxy <;> simp [buildRouter, hp]
  · by_cases hp : f.http.proxy <;> by_cases ht : f.http.throttle > 0 <;>
      simp [buildRouter, hp, ht]
  · by_cases hp : f.http.proxy <;> by_cases ht : f.http.throttle > 0 <;>
      simp [buildRouter, hp, ht]

/-- C5: a listener bind or fatal serve error makes the serving goroutine
terminate the process with exit status 1, with no drain step (no drain log,
no backend stop, no orderly listener close) on that path; request handling,
in contrast, always produces a response — handler-level outcomes never reach
a process-exit. -/
theorem fatal_serve_error_exits (e : String) (f : Flags) (aps : List String)
    (fsIndex : Option String) (apiH : Request → Resp) (req : Request)
    (c : Counters) :
    ProcEv.exitProcess 1 ∈ serveGoroutine (some e) ∧
    ProcEv.drainLog ∉ serveGoroutine (some e) ∧
    ProcEv.backendStop ∉ serveGoroutine (some e) ∧
    ProcEv.listenerClose ∉ serveGoroutine (some e) ∧
    (∃ resp c', serve f aps fsIndex apiH req c = HResult.ok resp c') := by
  refine ⟨by simp [serveGoroutine], by simp [serveGoroutine],
    by simp [serveGoroutine], by simp [serveGoroutine], ?_⟩
  simp only [serve]
  rw [runChain_top]
  cases h : routeHandler f (buildRouter f aps) fsIndex apiH
      (topRewrite f req) c with
  | ok r c' => exact ⟨r, c', by simp [recoverWrap]⟩
  | panicked c' => exact ⟨recov500, c', by simp [recoverWrap]⟩

/-- C3 (failing-input evaluation): with one request mid-flight, the shutdown
path of `initHTTP` — `srv.Close()` then the deferred `mapLimiter.Stop()` —
aborts the in-flight request instead of letting it complete, because
`Server.Close` closes active connections immediately; the backend is stopped
only after the close, as the spec orders. -/
theorem shutdown_close_aborts_inflight :
    shutdownEvents 1 =
      [ProcEv.drainLog, ProcEv.listenerClose, ProcEv.requestAborted,
       ProcEv.backendStop] ∧
    ProcEv.requestAborted ∈ shutdownEvents 1 := by
  decide

/-- A configuration probing C2: its (spec-modelled) window interval is one
minute, but the limiter `initHTTP` builds still uses the hard-coded hour. -/
def intervalProbeCfg : Flags :=
  { debug := false
    http :=
      { proxy := false, throttle := 0, cors := [], limit := 5, bind := ":80"
        tls := { use := false, cert := "", key := "" }
        windowInterval := 60, cleanupInterval := 10 } }

/-- C2 (counterexample): the window interval of the limiter is not taken from the
configuration surface — for a configuration whose window interval is 60
seconds, the limiter built by `initHTTP` has interval 3600. -/
theorem limiter_interval_not_configured_cex :
    (limiterOf intervalProbeCfg).interval ≠
      intervalProbeCfg.http.windowInterval := by
  decide

/-- C2 (amended): the limiter applied to API routes takes its limit from the
configured limit count (as the Go `uint64` conversion of it), but its window
interval is the fixed constant 3600 seconds, independent of configuration;
semantically, a first request of a fresh client on a limited API route
carries an `X-Ratelimit-Limit` header equal to the configured limit and an
`X-Ratelimit-Reset` one hour after arrival, and increments that client's
counter. -/
theorem limiter_limit_configured_interval_constant (f : Flags)
    (aps : List String) (fsIndex : Option String) (apiH : Request → Resp)
    (req : Request) (c : Counters)
    (hl : 0 < f.http.limit) (hl2 : f.http.limit < 2 ^ 63)
    (hm : req.method = Method.GET)
    (hp : stripSlash req.path ∈ aps) (hw : stripSlash req.path ≠ "/*")
    (h1 : goHasPre (stripSlash req.path) "/debug" = false)
    (h2 : goHasPre (stripSlash req.path) "/dist" = false)
    (hk : cLookup c (keyOf (topRewrite f req)) = none) :
    (limiterOf f).limit = f.http.limit.toNat ∧
    (limiterOf f).interval = 3600 ∧
    ∃ resp,
      serve f aps fsIndex apiH req c =
        HResult.ok resp (cStore c (keyOf (topRewrite f req)) 1 req.now) ∧
      ("X-Ratelimit-Limit", toString f.http.limit.toNat) ∈ resp.headers ∧
      ("X-Ratelimit-Reset", toString (req.now + 3600)) ∈ resp.headers := by
  have hlimNat : (limiterOf f).limit = f.http.limit.toNat := by
    simp only [limiterOf, goUInt64]
    rw [Int.emod_eq_of_lt (le_of_lt hl) (lt_trans hl2 (by norm_num))]
  have hlimPos : 0 < (limiterOf f).limit := by
    rw [hlimNat]; omega
  refine ⟨hlimNat, rfl, ?_⟩
  simp only [serve]
  rw [runChain_top,
    routeHandler_api f aps fsIndex apiH (topRewrite f req) c
      (by rw [topRewrite_path]; exact hp)
      (by rw [topRewrite_path]; exact hw)
      (by rw [topRewrite_method]; exact hm)
      (by rw [topRewrite_path]; exact h1)
      (by rw [topRewrite_path]; exact h2)]
  have hgm : apiGroupMws f.http.limit =
      [Mw.corsHandler, Mw.noCache, Mw.limiterHandle] := by
    simp [apiGroupMws, hl]
  rw [hgm]
  simp only [runChain, List.foldr, runMw]
  rw [show increment c (keyOf (topRewrite f req)) (limiterOf f).interval
        (topRewrite f req).now =
      (1, (topRewrite f req).now,
        cStore c (keyOf (topRewrite f req)) 1 (topRewrite f req).now) from by
    simp [increment, hk]]
  have hnot : ¬((limiterOf f).limit < 1) := by omega
  simp only [hnot, if_false, handlerOf, withHeaders, recoverWrap,
    topRewrite_now]
  refine ⟨_, rfl, ?_, ?_⟩
  · rw [← hlimNat]
    simp [rlHeaderList]
  · have : (limiterOf f).interval = 3600 := rfl
    rw [← this]
    simp [rlHeaderList]

/-- C1: `/api/ping` is registered outside the rate-limited group: whatever
the configuration and whatever counter state the client key has accumulated,
a GET or HEAD request for `/api/ping` returns status 200 (never 429), leaves
the counters of the limiter untouched (the increment-and-reject path is never
invoked), and still carries the three X-Ratelimit headers, added by the
separate header-only middleware. -/
theorem ping_outside_rate_limit (f : Flags) (aps : List String)
    (fsIndex : Option String) (apiH : Request → Resp) (req : Request)
    (c : Counters)
    (hape : "/api/ping" ∉ aps)
    (hpath : stripSlash req.path = "/api/ping")
    (hm : req.method = Method.GET ∨ req.method = Method.HEAD) :
    ∃ resp : Resp,
      serve f aps fsIndex apiH req c = HResult.ok resp c ∧
      resp.status = 200 ∧ resp.status ≠ 429 ∧
      "X-Ratelimit-Limit" ∈ resp.headers.map Prod.fst ∧
      "X-Ratelimit-Remaining" ∈ resp.headers.map Prod.fst ∧
      "X-Ratelimit-Reset" ∈ resp.headers.map Prod.fst := by
  have hp' : (topRewrite f req).path = "/api/ping" :=
    (topRewrite_path f req).trans hpath
  have hm' : (topRewrite f req).method = Method.GET ∨
      (topRewrite f req).method = Method.HEAD := by
    rw [topRewrite_method]; exact hm
  simp only [serve]
  rw [runChain_top,
    routeHandler_ping f aps fsIndex apiH (topRewrite f req) c hape hp' hm']
  simp only [withHeaders, recoverWrap]
  refine ⟨_, rfl, ?_, ?_, ?_, ?_, ?_⟩
  · by_cases hh : (topRewrite f req).method = Method.HEAD <;>
      simp [pingResp, hh]
  · by_cases hh : (topRewrite f req).method = Method.HEAD <;>
      simp [pingResp, hh]
  all_goals
    rw [List.map_append, rateSnapshot_names]
    simp

/-- C7: a GET of `/api/ping` answers 200 with the JSON pong body and
`Content-Type: application/json`; a HEAD of `/api/ping` answers 200 with an
empty body; and the HEAD registration of `/api/ping` is the only HEAD route
of the router. -/
theorem ping_handler_responses (f : Flags) (aps : List String)
    (fsIndex : Option String) (apiH : Request → Resp) (req : Request)
    (c : Counters)
    (hape : "/api/ping" ∉ aps)
    (hpath : stripSlash req.path = "/api/ping") :
    (req.method = Method.GET →
      ∃ resp, serve f aps fsIndex apiH req c = HResult.ok resp c ∧
        resp.status = 200 ∧ resp.body = pongJSON ∧
        ("Content-Type", "application/json") ∈ resp.headers) ∧
    (req.method = Method.HEAD →
      ∃ resp, serve f aps fsIndex apiH req c = HResult.ok resp c ∧
        resp.status = 200 ∧ resp.body = "") ∧
    (buildRouter f aps).routes.filter (fun r => r.method == Method.HEAD) =
      [{ method := Method.HEAD, pattern := "/api/ping", mws := pingMws,
         handler := HandlerId.ping }] := by
  have hp' : (topRewrite f req).path = "/api/ping" :=
    (topRewrite_path f req).trans hpath
  refine ⟨?_, ?_, ?_⟩
  · intro hg
    have hm' : (topRewrite f req).method = Method.GET := by
      rw [topRewrite_method]; exact hg
    simp only [serve]
    rw [runChain_top,
      routeHandler_ping f aps fsIndex apiH (topRewrite f req) c hape hp'
        (Or.inl hm'), hm']
    simp only [withHeaders, recoverWrap]
    refine ⟨_, rfl, ?_, ?_, ?_⟩
    · simp [pingResp]
    · simp [pingResp]
    · simp [pingResp]
  · intro hh
    have hm' : (topRewrite f req).method = Method.HEAD := by
      rw [topRewrite_method]; exact hh
    simp only [serve]
    rw [runChain_top,
      routeHandler_ping f aps fsIndex apiH (topRewrite f req) c hape hp'
        (Or.inr hm'), hm']
    simp only [withHeaders, recoverWrap]
    refine ⟨_, rfl, ?_, ?_⟩
    · simp [pingResp]
    · simp [pingResp]
  · have hapi : (apiGroupRoutes f.http.limit aps).filter
        (fun r => r.method == Method.HEAD) = [] := by
      rw [List.filter_eq_nil_iff]
      intro r hr
      simp only [apiGroupRoutes, List.mem_map] at hr
      obtain ⟨p', _, rfl⟩ := hr
      simp
    simp only [buildRouter, List.singleton_append, List.cons_append,
      List.nil_append]
    rw [List.filter_cons_of_neg, List.filter_append, hapi, List.nil_append]
    · decide
    · decide

/-- C8: the GET catch-all serves the embedded SPA entry document for every
path that starts neither with `/api` nor lies under a mount or a registered
route, and answers 404 for an `/api`-prefixed path that matches no API
route. -/
theorem spa_catchall_behavior (f : Flags) (aps : List String) (b : String)
    (fsIndex : Option String) (apiH : Request → Resp) (req : Request)
    (c : Counters)
    (hfs : fsIndex = some b)
    (hm : req.method = Method.GET)
    (hnapi : stripSlash req.path ∉ aps)
    (hnping : stripSlash req.path ≠ "/api/ping")
    (h1 : goHasPre (stripSlash req.path) "/debug" = false)
    (h2 : goHasPre (stripSlash req.path) "/dist" = false) :
    (goHasPre (stripSlash req.path) "/api" = false →
      serve f aps fsIndex apiH req c =
        HResult.ok { status := 200, headers := [], body := b } c) ∧
    (goHasPre (stripSlash req.path) "/api" = true →
      serve f aps fsIndex apiH req c = HResult.ok resp404 c) := by
  have hrh := routeHandler_catchall f aps fsIndex apiH (topRewrite f req) c
    (by rw [topRewrite_path]; exact hnapi)
    (by rw [topRewrite_path]; exact hnping)
    (by rw [topRewrite_method]; exact hm)
    (by rw [topRewrite_path]; exact h1)
    (by rw [topRewrite_path]; exact h2)
  constructor <;> intro hapi
  · simp only [serve]
    rw [runChain_top, hrh]
    simp [handlerOf, topRewrite_path, hapi, hfs, recoverWrap]
  · simp only [serve]
    rw [runChain_top, hrh]
    simp [handlerOf, topRewrite_path, hapi, recoverWrap]

/-- C6: any panic below the recovery middleware — in particular the SPA
catch-all panic when the embedded index document cannot be read — is
converted into a 500 response with the process carrying on (a normal `ok`
outcome), never into a crash. -/
theorem handler_panic_recovered_to_500 (f : Flags) (aps : List String)
    (fsIndex : Option String) (apiH : Request → Resp) (req : Request)
    (c c' : Counters) :
    (routeHandler f (buildRouter f aps) fsIndex apiH (topRewrite f req) c =
        HResult.panicked c' →
      serve f aps fsIndex apiH req c = HResult.ok recov500 c') ∧
    (fsIndex = none → req.method = Method.GET →
      stripSlash req.path ∉ aps → stripSlash req.path ≠ "/api/ping" →
      goHasPre (stripSlash req.path) "/debug" = false →
      goHasPre (stripSlash req.path) "/dist" = false →
      goHasPre (stripSlash req.path) "/api" = false →
      serve f aps fsIndex apiH req c = HResult.ok recov500 c) ∧
    recov500.status = 500 := by
  refine ⟨?_, ?_, rfl⟩
  · intro h
    simp only [serve]
    rw [runChain_top, h]
    rfl
  · intro hfs hm hnapi hnping h1 h2 hapi
    have hrh := routeHandler_catchall f aps fsIndex apiH (topRewrite f req) c
      (by rw [topRewrite_path]; exact hnapi)
      (by rw [topRewrite_path]; exact hnping)
      (by rw [topRewrite_method]; exact hm)
      (by rw [topRewrite_path]; exact h1)
      (by rw [topRewrite_path]; exact h2)
    simp only [serve]
    rw [runChain_top, hrh]
    simp [handlerOf, topRewrite_path, hapi, hfs, recoverWrap]

/-- C9: the RealIP rewrite middleware is installed iff the trusted-proxy flag
is set; that flag defaults to off; and with it off, the client key and the
remote address seen downstream come from the transport-level remote address
alone — a forwarded-client header has no effect. -/
theorem trusted_proxy_default_off (f : Flags) (aps : List String)
    (req : Request) :
    (Mw.realIP ∈ (buildRouter f aps).mws ↔ f.http.proxy = true) ∧
    defaultFlags.http.proxy = false ∧
    (f.http.proxy = false →
      (topRewrite f req).remoteAddr = req.remoteAddr ∧
      keyOf (topRewrite f req) = keyOf req) := by
  refine ⟨?_, rfl, fun h => ?_⟩
  · by_cases hp : f.http.proxy <;> by_cases ht : f.http.throttle > 0 <;>
      simp [buildRouter, hp, ht]
  · have ha := topRewrite_remoteAddr_no_proxy f req h
    exact ⟨ha, by simp only [keyOf, ha]⟩

/-- C10: with a non-positive configured limit, the API group is registered
without the limiter middleware: an API request is served by its handler
unchanged — same counters (no increment), no 429 path, no rate-limit headers
beyond what the handler itself set. -/
theorem limit_nonpositive_disables_limiter (f : Flags) (aps : List String)
    (fsIndex : Option String) (apiH : Request → Resp) (req : Request)
    (c : Counters)
    (hlim : f.http.limit ≤ 0)
    (hm : req.method = Method.GET)
    (hp : stripSlash req.path ∈ aps) (hw : stripSlash req.path ≠ "/*")
    (h1 : goHasPre (stripSlash req.path) "/debug" = false)
    (h2 : goHasPre (stripSlash req.path) "/dist" = false) :
    apiGroupMws f.http.limit = [Mw.corsHandler, Mw.noCache] ∧
    serve f aps fsIndex apiH req c =
      HResult.ok (apiH (topRewrite f req)) c := by
  constructor
  · simp [apiGroupMws, not_lt.mpr hlim]
  · simp only [serve]
    rw [runChain_top,
      routeHandler_api f aps fsIndex apiH (topRewrite f req) c
        (by rw [topRewrite_path]; exact hp)
        (by rw [topRewrite_path]; exact hw)
        (by rw [topRewrite_method]; exact hm)
        (by rw [topRewrite_path]; exact h1)
        (by rw [topRewrite_path]; exact h2),
      runChain_apiMws_disabled f _ _ _ hlim]
    rfl

/-! ## Concrete witness fixtures -/

/-- A configuration with the rate limit enabled (limit 3). -/
def limitOnCfg : Flags :=
  { defaultFlags with http := { defaultFlags.http with limit := 3 } }

def reqPingGET : Request :=
  { method := Method.GET, path := "/api/ping",
    remoteAddr := "203.0.113.7:4711", forwardedClient := none, now := 1000 }

def reqPingHEAD : Request := { reqPingGET with method := Method.HEAD }

def reqSpa : Request := { reqPingGET with path := "/about" }

def reqApi404 : Request := { reqPingGET with path := "/api/nope" }

def reqLookup : Request := { reqPingGET with path := "/api/1.2.3.4" }

def spoofReq : Request :=
  { reqSpa with forwardedClient := some "10.0.0.1" }

/-- A counter state in which the key of the ping client is far over the limit. -/
def overLimitCounters : Counters := [("203.0.113.7", 99, 990)]

/-- C1 witness: on the limit-3 configuration, with the client 99 requests
deep into the window, GET `/api/ping` still returns 200 with the rate-limit
headers and does not touch the counters. -/
theorem ping_outside_rate_limit_witness :
    ∃ resp : Resp,
      serve limitOnCfg [] none (fun _ => resp404) reqPingGET
          overLimitCounters =
        HResult.ok resp overLimitCounters ∧
      resp.status = 200 ∧ resp.status ≠ 429 ∧
      "X-Ratelimit-Limit" ∈ resp.headers.map Prod.fst ∧
      "X-Ratelimit-Remaining" ∈ resp.headers.map Prod.fst ∧
      "X-Ratelimit-Reset" ∈ resp.headers.map Prod.fst :=
  ping_outside_rate_limit limitOnCfg [] none (fun _ => resp404) reqPingGET
    overLimitCounters (by simp) (by decide) (Or.inl rfl)

/-- C2 witness (for the amended claim): with limit 3 and a fresh client on a
registered API route, the limiter headers show limit 3 and reset one hour
after arrival, and the counter is created. -/
theorem limiter_limit_configured_interval_constant_witness :
    (limiterOf limitOnCfg).limit = limitOnCfg.http.limit.toNat ∧
    (limiterOf limitOnCfg).interval = 3600 ∧
    ∃ resp,
      serve limitOnCfg ["/api/1.2.3.4"] none (fun _ => profilerResp)
          reqLookup [] =
        HResult.ok resp
          (cStore [] (keyOf (topRewrite limitOnCfg reqLookup)) 1
            reqLookup.now) ∧
      ("X-Ratelimit-Limit", toString limitOnCfg.http.limit.toNat) ∈
        resp.headers ∧
      ("X-Ratelimit-Reset", toString (reqLookup.now + 3600)) ∈
        resp.headers :=
  limiter_limit_configured_interval_constant limitOnCfg ["/api/1.2.3.4"]
    none (fun _ => profilerResp) reqLookup [] (by decide) (by decide) rfl
    (by decide) (by decide) (by decide) (by decide) rfl

/-- C4 witness: the ordering facts evaluated on the default configuration. -/
theorem middleware_chain_order_witness :
    List.Sublist (specMwOrder defaultFlags)
      (buildRouter defaultFlags []).mws ∧
    (∃ rest, (buildRouter defaultFlags []).mws =
      (if defaultFlags.http.proxy then [Mw.realIP] else [])
        ++ Mw.recoverer :: rest) ∧
    Mw.limiterHandle ∉ (buildRouter defaultFlags []).mws ∧
    Mw.rateHeader ∉ (buildRouter defaultFlags []).mws ∧
    (0 < defaultFlags.http.limit →
      apiGroupMws defaultFlags.http.limit =
        [Mw.corsHandler, Mw.noCache, Mw.limiterHandle]) :=
  middleware_chain_order defaultFlags []

/-- C5 witness: a concrete bind error makes the goroutine exit 1 without any
drain event, and a concrete request is always answered. -/
theorem fatal_serve_error_exits_witness :
    ProcEv.exitProcess 1 ∈
      serveGoroutine (some "listen tcp :80: address already in use") ∧
    ProcEv.drainLog ∉
      serveGoroutine (some "listen tcp :80: address already in use") ∧
    ProcEv.backendStop ∉
      serveGoroutine (some "listen tcp :80: address already in use") ∧
    ProcEv.listenerClose ∉
      serveGoroutine (some "listen tcp :80: address already in use") ∧
    (∃ resp c', serve defaultFlags [] none (fun _ => resp404) reqSpa [] =
      HResult.ok resp c') :=
  fatal_serve_error_exits "listen tcp :80: address already in use"
    defaultFlags [] none (fun _ => resp404) reqSpa []

/-- C6 witness: with the embedded index unreadable, GET `/about` yields the
recovered 500 response rather than a crash. -/
theorem handler_panic_recovered_to_500_witness :
    serve defaultFlags [] none (fun _ => resp404) reqSpa [] =
      HResult.ok recov500 [] :=
  (handler_panic_recovered_to_500 defaultFlags [] none (fun _ => resp404)
    reqSpa [] []).2.1 rfl rfl (by simp) (by decide) (by decide) (by decide)
    (by decide)

/-- C7 witness: concrete GET and HEAD requests to `/api/ping`. -/
theorem ping_handler_responses_witness :
    (∃ resp, serve defaultFlags [] none (fun _ => resp404) reqPingGET [] =
        HResult.ok resp [] ∧
      resp.status = 200 ∧ resp.body = pongJSON ∧
      ("Content-Type", "application/json") ∈ resp.headers) ∧
    (∃ resp, serve defaultFlags [] none (fun _ => resp404) reqPingHEAD [] =
        HResult.ok resp [] ∧
      resp.status = 200 ∧ resp.body = "") :=
  ⟨(ping_handler_responses defaultFlags [] none (fun _ => resp404)
      reqPingGET [] (by simp) (by decide)).1 rfl,
   (ping_handler_responses defaultFlags [] none (fun _ => resp404)
      reqPingHEAD [] (by simp) (by decide)).2.1 rfl⟩

/-- C8 witness: GET `/about` serves the index document; GET `/api/nope`
(no matching API route) yields 404. -/
theorem spa_catchall_behavior_witness :
    serve defaultFlags [] (some "<html>spa</html>") (fun _ => resp404)
        reqSpa [] =
      HResult.ok { status := 200, headers := [], body := "<html>spa</html>" }
        [] ∧
    serve defaultFlags [] (some "<html>spa</html>") (fun _ => resp404)
        reqApi404 [] =
      HResult.ok resp404 [] :=
  ⟨(spa_catchall_behavior defaultFlags [] "<html>spa</html>"
      (some "<html>spa</html>") (fun _ => resp404) reqSpa [] rfl rfl
      (by simp) (by decide) (by decide) (by decide)).1 (by decide),
   (spa_catchall_behavior defaultFlags [] "<html>spa</html>"
      (some "<html>spa</html>") (fun _ => resp404) reqApi404 [] rfl rfl
      (by simp) (by decide) (by decide) (by decide)).2 (by decide)⟩

/-- C9 witness: with the default (proxy off) configuration, a spoofed
forwarded-client header does not change the remote address or the client
key. -/
theorem trusted_proxy_default_off_witness :
    (topRewrite defaultFlags spoofReq).remoteAddr = spoofReq.remoteAddr ∧
    keyOf (topRewrite defaultFlags spoofReq) = keyOf spoofReq :=
  (trusted_proxy_default_off defaultFlags [] spoofReq).2.2 rfl

/-- C10 witness: with the default limit 0, a registered API route is served
by its handler with the counters untouched. -/
theorem limit_nonpositive_disables_limiter_witness :
    apiGroupMws defaultFlags.http.limit = [Mw.corsHandler, Mw.noCache] ∧
    serve defaultFlags ["/api/1.2.3.4"] none (fun _ => profilerResp)
        reqLookup [] =
      HResult.ok ((fun _ => profilerResp) (topRewrite defaultFlags reqLookup))
        [] :=
  limit_nonpositive_disables_limiter defaultFlags ["/api/1.2.3.4"] none
    (fun _ => profilerResp) reqLookup [] (by decide) rfl (by decide)
    (by decide) (by decide) (by decide)

end GeoIP
